import Mathlib

/-!
Shallow embedding of the rxjs-typescript-breakout game core (src/index.ts).

Numbers are modelled by `ℚ` (the source uses JS numbers; every quantity the
spec talks about stays exact in `ℚ`). The first ticker emission carries
`deltaTime: null`; JS arithmetic coerces `null` to `0`, which we model by
`Option ℚ` together with `deltaVal`. Streams are modelled as lists of
emissions, `scan` as explicit accumulation, `distinctUntilChanged` as
`List.destutter (· ≠ ·)`.
-/

namespace Breakout

/-- `Point` record from src/index.ts: a scalar pair. -/
structure Point where
  x : ℚ
  y : ℚ
deriving DecidableEq, Repr

/-- `Ball` record: position and (unnormalized) direction vector. -/
structure Ball where
  position : Point
  direction : Point
deriving DecidableEq, Repr

/-- `Brick` record: center-anchored axis-aligned rectangle. -/
structure Brick where
  x : ℚ
  y : ℚ
  height : ℚ
  width : ℚ
deriving DecidableEq, Repr

/-- `Ticker` record: absolute time (ms) and delta in seconds since the
previous tick. The first tick carries `deltaTime: null`, modelled as `none`. -/
structure Ticker where
  time : ℚ
  deltaTime : Option ℚ
deriving DecidableEq, Repr

/-- `State` record: the game-state snapshot threaded through the reducer. -/
structure State where
  ball : Ball
  bricks : List Brick
  score : ℤ
deriving DecidableEq, Repr

/-- `Collision` record: per-tick transient collision flags. -/
structure Collision where
  paddle : Bool
  floor : Bool
  wall : Bool
  ceiling : Bool
  brick : Bool
deriving DecidableEq, Repr

/-- JS arithmetic coerces `null` to `0` (`null * x === 0`), so a `none`
delta contributes zero to every product it appears in. -/
def deltaVal : Option ℚ → ℚ
  | none => 0
  | some d => d

-- constants from src/index.ts
def PADDLE_WIDTH : ℚ := 200
def PADDLE_HEIGHT : ℚ := 20
def PADDLE_SPEED : ℚ := 240
def BALL_RADIUS : ℚ := 10
def BALL_SPEED : ℚ := 60
def BRICK_ROWS : ℕ := 5
def BRICK_COLUMNS : ℕ := 7
def BRICK_HEIGHT : ℚ := 20
def BRICK_GAP : ℚ := 3
def ARROW_LEFT : ℤ := -1
def ARROW_RIGHT : ℤ := 1

/-- `isHit(ball, paddle)` from src/index.ts: the stage height is a runtime
canvas dimension, passed here as the parameter `stageHeight`. -/
def isHit (stageHeight : ℚ) (ball : Ball) (paddle : ℚ) : Bool :=
  decide (ball.position.x > paddle - PADDLE_WIDTH / 2)
    && decide (ball.position.x < paddle + PADDLE_WIDTH / 2)
    && decide (ball.position.y > stageHeight - PADDLE_HEIGHT - BALL_RADIUS)

/-- `isCollision(ball, brick)` from src/index.ts: tests the ball's position
plus one unscaled direction step against the brick's bounding rectangle. -/
def isCollision (ball : Ball) (brick : Brick) : Bool :=
  decide (ball.position.x + ball.direction.x > brick.x - brick.width / 2)
    && decide (ball.position.x + ball.direction.x < brick.x + brick.width / 2)
    && decide (ball.position.y + ball.direction.y > brick.y - brick.height / 2)
    && decide (ball.position.y + ball.direction.y < brick.y + brick.height / 2)

/-- `createBricks()` from src/index.ts: the `BRICK_ROWS × BRICK_COLUMNS`
grid layout, parameterized by the runtime stage width. -/
def createBricks (stageWidth : ℚ) : List Brick :=
  let width := (stageWidth - BRICK_GAP - BRICK_GAP * (BRICK_COLUMNS : ℚ)) / (BRICK_COLUMNS : ℚ)
  (List.range BRICK_ROWS).flatMap fun i =>
    (List.range BRICK_COLUMNS).map fun j =>
      { x := (j : ℚ) * (width + BRICK_GAP) + width / 2 + BRICK_GAP
        y := (i : ℚ) * (BRICK_HEIGHT + BRICK_GAP) + BRICK_HEIGHT / 2 + BRICK_GAP + 20
        width := width
        height := BRICK_HEIGHT }

/-- `initialState()` from src/index.ts. -/
def initialState (stageWidth stageHeight : ℚ) : State :=
  { ball :=
      { position := { x := stageWidth / 2, y := stageHeight / 2 }
        direction := { x := 2, y := 2 } }
    bricks := createBricks stageWidth
    score := 0 }

/-- The `bricks.forEach` loop inside the reducer of `createState$`: walks the
brick list in order threading (remaining bricks pushed so far, score,
`collision.brick` flag), exactly as the source's mutable accumulation does. -/
def brickPhase (ball : Ball) (bricks : List Brick) (score : ℤ) : List Brick × ℤ × Bool :=
  bricks.foldl
    (fun acc brick =>
      if !(isCollision ball brick) then (acc.1 ++ [brick], acc.2.1, acc.2.2)
      else (acc.1, acc.2.1 + 10, true))
    ([], score, false)

/-- One step of the `scan` inside `createState$`: the reducer
`(state, [ticker, paddle]) => nextState`, also returning the transient
`Collision` record the source computes locally. Stage dimensions are runtime
canvas values, passed as parameters. -/
def tickC (stageWidth stageHeight : ℚ) (state : State) (ticker : Ticker) (paddle : ℚ) :
    State × Collision :=
  let dt := deltaVal ticker.deltaTime
  let pos : Point :=
    { x := state.ball.position.x + state.ball.direction.x * dt * BALL_SPEED
      y := state.ball.position.y + state.ball.direction.y * dt * BALL_SPEED }
  let ball : Ball := { position := pos, direction := state.ball.direction }
  let bp := brickPhase ball state.bricks state.score
  let collisionPaddle := isHit stageHeight ball paddle
  let collisionWall : Bool :=
    decide (pos.x < BALL_RADIUS) || decide (pos.x > stageWidth - BALL_RADIUS)
  let dirx := if collisionWall then -ball.direction.x else ball.direction.x
  let collisionCeiling : Bool := decide (pos.y < BALL_RADIUS)
  let diry :=
    if bp.2.2 || collisionPaddle || collisionCeiling then -ball.direction.y
    else ball.direction.y
  ({ ball := { position := pos, direction := { x := dirx, y := diry } }
     bricks := bp.1
     score := bp.2.1 },
   { paddle := collisionPaddle
     floor := false
     wall := collisionWall
     ceiling := collisionCeiling
     brick := bp.2.2 })

/-- The state emitted by one reducer step of `createState$`. -/
def tick (stageWidth stageHeight : ℚ) (state : State) (ticker : Ticker) (paddle : ℚ) : State :=
  (tickC stageWidth stageHeight state ticker paddle).1

/-- Iterating the reducer over a list of (ticker, paddle) inputs: the state
after a run of ticks within one session. -/
def runTicks (stageWidth stageHeight : ℚ) : State → List (Ticker × ℚ) → State
  | st, [] => st
  | st, (tk, pd) :: rest => runTicks stageWidth stageHeight (tick stageWidth stageHeight st tk pd) rest

/-- The ball as it stands when the brick loop runs: the source mutates
`ball.position` by one Euler step before testing any brick. -/
def movedBall (state : State) (ticker : Ticker) : Ball :=
  let dt := deltaVal ticker.deltaTime
  { position :=
      { x := state.ball.position.x + state.ball.direction.x * dt * BALL_SPEED
        y := state.ball.position.y + state.ball.direction.y * dt * BALL_SPEED }
    direction := state.ball.direction }

/-- One step of the `scan` inside `createPaddle$`: accumulate
`deltaTime * PADDLE_SPEED * direction` and clamp, as in the source
(`Math.max(Math.min(next, stageWidth - PADDLE_WIDTH/2), PADDLE_WIDTH/2)`). -/
def paddleStep (stageWidth : ℚ) (position : ℚ) (tickerDelta : Option ℚ) (direction : ℚ) : ℚ :=
  let dist := deltaVal tickerDelta * PADDLE_SPEED * direction
  max (min (position + dist) (stageWidth - PADDLE_WIDTH / 2)) (PADDLE_WIDTH / 2)

/-- The emissions of the `scan` in `createPaddle$` (the seed itself is the
initial accumulator, not an emission), over a list of sampled
(deltaTime, direction) pairs. -/
def paddleScan (stageWidth : ℚ) : ℚ → List (Option ℚ × ℚ) → List ℚ
  | _, [] => []
  | p, (d, dir) :: rest =>
    let q := paddleStep stageWidth p d dir
    q :: paddleScan stageWidth q rest

/-- The emissions of `createPaddle$`: the scan outputs run through
`distinctUntilChanged`, seeded at `stageWidth / 2`. -/
def paddleEmissions (stageWidth : ℚ) (inputs : List (Option ℚ × ℚ)) : List ℚ :=
  (paddleScan stageWidth (stageWidth / 2) inputs).destutter (· ≠ ·)

/-- The `scan` of `ticker$` after the first emission: each later tick carries
`deltaTime = (time - previousTime) / 1000`. -/
def tickerScan : Ticker → List ℚ → List Ticker
  | _, [] => []
  | prev, t :: rest =>
    let cur : Ticker := { time := t, deltaTime := some ((t - prev.time) / 1000) }
    cur :: tickerScan cur rest

/-- The emissions of `ticker$` for a list of sampled timestamps: `scan`
without a seed passes the first mapped element — whose `deltaTime` is
`null` — through unchanged. -/
def tickerStream : List ℚ → List Ticker
  | [] => []
  | t :: rest =>
    let first : Ticker := { time := t, deltaTime := none }
    first :: tickerScan first rest

/-- A DOM key event as `direction$` sees it: only the event kind and the
`key` string matter. -/
inductive KeyEvent where
  | keydown (key : String)
  | keyup (key : String)
deriving DecidableEq, Repr

/-- The emission (if any) of `direction$` for one key event: the merge of
keydowns filtered to ArrowLeft mapped to -1, keydowns filtered to ArrowRight
mapped to +1, and every keyup mapped to 0. -/
def directionEmit : KeyEvent → Option ℤ
  | .keydown k =>
    if k = "ArrowLeft" then some ARROW_LEFT
    else if k = "ArrowRight" then some ARROW_RIGHT
    else none
  | .keyup _ => some 0

/-- Terminal outcome of a session. -/
inductive Outcome where
  | lost
  | won
deriving DecidableEq, Repr

/-- The terminal-condition check in `updateView`, run after each rendered
frame: `restart$.error('game over')` when the ball's y passes
`stage.height - BALL_RADIUS`, else `restart$.error('cong')` when no bricks
remain (a second `error` on the already-stopped subject has no effect, so
the loss check wins when both fire). -/
def sessionOutcome (stageHeight : ℚ) (ball : Ball) (bricks : List Brick) : Option Outcome :=
  if ball.position.y > stageHeight - BALL_RADIUS then some .lost
  else if bricks.length = 0 then some .won
  else none

/-- Spec reading of the paddle hit test (§4.1): the ball's x lies within the
paddle's half-width span around the paddle center, and the ball's y has come
within one ball radius of the paddle's top edge, the paddle's vertical band
being measured from the playfield bottom (canvas y grows downward, so the
band is everything below `stageHeight - PADDLE_HEIGHT - BALL_RADIUS`). -/
def hitSpec (stageHeight : ℚ) (ball : Ball) (paddleCenterX : ℚ) : Prop :=
  |ball.position.x - paddleCenterX| < PADDLE_WIDTH / 2 ∧
  ball.position.y + BALL_RADIUS > stageHeight - PADDLE_HEIGHT

-- helper lemmas shared by the claim theorems

lemma brickPhase_foldl (ball : Ball) (bricks : List Brick) (acc : List Brick)
    (s : ℤ) (flag : Bool) :
    bricks.foldl
      (fun acc brick =>
        if !(isCollision ball brick) then (acc.1 ++ [brick], acc.2.1, acc.2.2)
        else (acc.1, acc.2.1 + 10, true))
      (acc, s, flag) =
      (acc ++ bricks.filter (fun b => !(isCollision ball b)),
       s + 10 * (bricks.countP (fun b => isCollision ball b) : ℤ),
       flag || bricks.any (fun b => isCollision ball b)) := by
  induction bricks generalizing acc s flag with
  | nil => simp
  | cons b bs ih =>
    rw [List.foldl_cons]
    split <;> rename_i hc <;> simp only [Bool.not_eq_true', Bool.not_eq_false] at hc <;>
      rw [ih] <;>
      simp [hc, List.filter_cons, List.countP_cons, List.any_cons, List.append_assoc]
    ring

lemma brickPhase_eq (ball : Ball) (bricks : List Brick) (score : ℤ) :
    brickPhase ball bricks score =
      (bricks.filter (fun b => !(isCollision ball b)),
       score + 10 * (bricks.countP (fun b => isCollision ball b) : ℤ),
       bricks.any (fun b => isCollision ball b)) := by
  simpa [brickPhase] using brickPhase_foldl ball bricks [] score false

lemma tick_bricks (W H : ℚ) (st : State) (tk : Ticker) (pd : ℚ) :
    (tick W H st tk pd).bricks =
      st.bricks.filter (fun b => !(isCollision (movedBall st tk) b)) := by
  simp [tick, tickC, brickPhase_eq, movedBall]

lemma tick_score (W H : ℚ) (st : State) (tk : Ticker) (pd : ℚ) :
    (tick W H st tk pd).score =
      st.score + 10 * (st.bricks.countP (fun b => isCollision (movedBall st tk) b) : ℤ) := by
  simp [tick, tickC, brickPhase_eq, movedBall]

lemma tickC_brickFlag (W H : ℚ) (st : State) (tk : Ticker) (pd : ℚ) :
    (tickC W H st tk pd).2.brick =
      st.bricks.any (fun b => isCollision (movedBall st tk) b) := by
  simp [tickC, brickPhase_eq, movedBall]

lemma tick_position (W H : ℚ) (st : State) (tk : Ticker) (pd : ℚ) :
    (tick W H st tk pd).ball.position = (movedBall st tk).position := by
  simp [tick, tickC, movedBall]

lemma tick_direction (W H : ℚ) (st : State) (tk : Ticker) (pd : ℚ) :
    ((tick W H st tk pd).ball.direction.x = st.ball.direction.x ∨
      (tick W H st tk pd).ball.direction.x = -st.ball.direction.x) ∧
    ((tick W H st tk pd).ball.direction.y = st.ball.direction.y ∨
      (tick W H st tk pd).ball.direction.y = -st.ball.direction.y) := by
  simp only [tick, tickC]
  constructor
  · split <;> simp
  · split <;> simp

lemma movedBall_zero (st : State) (tk : Ticker) (h : tk.deltaTime = some 0) :
    movedBall st tk = st.ball := by
  simp [movedBall, deltaVal, h]

lemma tick_score_mono (W H : ℚ) (st : State) (tk : Ticker) (pd : ℚ) :
    st.score ≤ (tick W H st tk pd).score := by
  rw [tick_score]
  have : (0 : ℤ) ≤ 10 * (st.bricks.countP (fun b => isCollision (movedBall st tk) b) : ℤ) := by
    positivity
  linarith

lemma runTicks_cons (W H : ℚ) (st : State) (tk : Ticker) (pd : ℚ) (rest : List (Ticker × ℚ)) :
    runTicks W H st ((tk, pd) :: rest) = runTicks W H (tick W H st tk pd) rest := rfl

lemma runTicks_score_nonneg (W H : ℚ) (st : State) (h : 0 ≤ st.score)
    (l : List (Ticker × ℚ)) : 0 ≤ (runTicks W H st l).score := by
  induction l generalizing st with
  | nil => exact h
  | cons p rest ih =>
    obtain ⟨tk, pd⟩ := p
    rw [runTicks_cons]
    exact ih _ (le_trans h (tick_score_mono W H st tk pd))

lemma runTicks_bricks_sublist (W H : ℚ) (st : State) (l : List (Ticker × ℚ)) :
    (runTicks W H st l).bricks.Sublist st.bricks := by
  induction l generalizing st with
  | nil => exact List.Sublist.refl _
  | cons p rest ih =>
    obtain ⟨tk, pd⟩ := p
    rw [runTicks_cons]
    refine List.Sublist.trans (ih (tick W H st tk pd)) ?_
    rw [tick_bricks]
    exact List.filter_sublist _

lemma paddleStep_bounds (W : ℚ) (h : PADDLE_WIDTH ≤ W) (p : ℚ) (d : Option ℚ) (dir : ℚ) :
    PADDLE_WIDTH / 2 ≤ paddleStep W p d dir ∧ paddleStep W p d dir ≤ W - PADDLE_WIDTH / 2 := by
  unfold paddleStep
  refine ⟨le_max_right _ _, max_le (min_le_right _ _) (by linarith)⟩

lemma paddleScan_cons (W p : ℚ) (d : Option ℚ) (dir : ℚ) (rest : List (Option ℚ × ℚ)) :
    paddleScan W p ((d, dir) :: rest) =
      paddleStep W p d dir :: paddleScan W (paddleStep W p d dir) rest := rfl

lemma paddleScan_bounds (W : ℚ) (h : PADDLE_WIDTH ≤ W) (p : ℚ)
    (inputs : List (Option ℚ × ℚ)) :
    ∀ q ∈ paddleScan W p inputs, PADDLE_WIDTH / 2 ≤ q ∧ q ≤ W - PADDLE_WIDTH / 2 := by
  induction inputs generalizing p with
  | nil => intro q hq; simp [paddleScan] at hq
  | cons i rest ih =>
    obtain ⟨d, dir⟩ := i
    intro q hq
    rw [paddleScan_cons] at hq
    rcases List.mem_cons.mp hq with h1 | h1
    · subst h1; exact paddleStep_bounds W h p d dir
    · exact ih _ _ h1

/-- Claim C1, counterexample: with the ball at (97, 97), direction (2, 2)
and deltaTime 1, the pre-integration position plus one direction step is
(99, 99), inside the brick centered at (100, 100) — yet the reducer keeps
that brick and leaves the score at 0, because the source moves the ball
first and tests `isCollision` at the post-integration position (217, 217). -/
theorem claim_C1_counterexample :
    isCollision ⟨⟨97, 97⟩, ⟨2, 2⟩⟩ ⟨100, 100, 20, 20⟩ = true ∧
    tick 480 320 ⟨⟨⟨97, 97⟩, ⟨2, 2⟩⟩, [⟨100, 100, 20, 20⟩], 0⟩ ⟨0, some 1⟩ 240 =
      ⟨⟨⟨217, 217⟩, ⟨2, 2⟩⟩, [⟨100, 100, 20, 20⟩], 0⟩ := by
  constructor
  · norm_num [isCollision]
  · norm_num [tick, tickC, brickPhase, isCollision, isHit, deltaVal,
      BALL_SPEED, BALL_RADIUS, PADDLE_WIDTH, PADDLE_HEIGHT]

/-- Claim C1 (amended): in every reducer tick each brick of the current
collection is tested, in original order, with `isCollision` applied to the
ball's POST-integration position plus one unscaled direction step; a brick
is removed from the next collection, the score increases by 10 and the
brick-collision flag is set exactly when that test is true, and the brick
is kept otherwise. -/
theorem claim_C1_brick_collision (W H : ℚ) (st : State) (tk : Ticker) (pd : ℚ) :
    (tick W H st tk pd).bricks =
      st.bricks.filter (fun b => !(isCollision (movedBall st tk) b)) ∧
    (tick W H st tk pd).score =
      st.score + 10 * (st.bricks.countP (fun b => isCollision (movedBall st tk) b) : ℤ) ∧
    (tickC W H st tk pd).2.brick =
      st.bricks.any (fun b => isCollision (movedBall st tk) b) :=
  ⟨tick_bricks W H st tk pd, tick_score W H st tk pd, tickC_brickFlag W H st tk pd⟩

/-- Claim C2, counterexample: a tick with deltaTime 0 and the ball within
one radius of the left wall leaves position, bricks and score unchanged
but flips `direction.x` from 2 to -2, so a field other than score/bricks
differs in the output state. -/
theorem claim_C2_counterexample :
    (⟨0, some 0⟩ : Ticker).deltaTime = some 0 ∧
    tick 480 320 ⟨⟨⟨5, 160⟩, ⟨2, 2⟩⟩, [], 0⟩ ⟨0, some 0⟩ 240 =
      ⟨⟨⟨5, 160⟩, ⟨-2, 2⟩⟩, [], 0⟩ ∧
    ((-2 : ℚ) ≠ 2) := by
  refine ⟨rfl, ?_, by norm_num⟩
  norm_num [tick, tickC, brickPhase, isCollision, isHit, deltaVal,
    BALL_SPEED, BALL_RADIUS, PADDLE_WIDTH, PADDLE_HEIGHT]

/-- Claim C2 (amended): for every tick with deltaTime 0 the ball position is
unchanged (zero displacement), bricks and score change only by the
collision-driven removal and 10-per-brick increase, and the only other
possible change is a collision-driven sign flip of a direction component. -/
theorem claim_C2_zero_delta (W H : ℚ) (st : State) (tk : Ticker) (pd : ℚ)
    (h : tk.deltaTime = some 0) :
    (tick W H st tk pd).ball.position = st.ball.position ∧
    (tick W H st tk pd).bricks = st.bricks.filter (fun b => !(isCollision st.ball b)) ∧
    (tick W H st tk pd).score =
      st.score + 10 * (st.bricks.countP (fun b => isCollision st.ball b) : ℤ) ∧
    ((tick W H st tk pd).ball.direction.x = st.ball.direction.x ∨
      (tick W H st tk pd).ball.direction.x = -st.ball.direction.x) ∧
    ((tick W H st tk pd).ball.direction.y = st.ball.direction.y ∨
      (tick W H st tk pd).ball.direction.y = -st.ball.direction.y) := by
  have hm := movedBall_zero st tk h
  refine ⟨?_, ?_, ?_, (tick_direction W H st tk pd).1, (tick_direction W H st tk pd).2⟩
  · rw [tick_position, hm]
  · rw [tick_bricks, hm]
  · rw [tick_score, hm]

/-- Witness for claim C2 (amended) at a concrete zero-delta tick. -/
theorem claim_C2_zero_delta_witness :
    (⟨7, some 0⟩ : Ticker).deltaTime = some 0 ∧
    ((tick 480 320 ⟨⟨⟨240, 160⟩, ⟨2, 2⟩⟩, [], 5⟩ ⟨7, some 0⟩ 240).ball.position =
        (⟨⟨⟨240, 160⟩, ⟨2, 2⟩⟩, [], 5⟩ : State).ball.position ∧
      (tick 480 320 ⟨⟨⟨240, 160⟩, ⟨2, 2⟩⟩, [], 5⟩ ⟨7, some 0⟩ 240).bricks =
        (⟨⟨⟨240, 160⟩, ⟨2, 2⟩⟩, [], 5⟩ : State).bricks.filter
          (fun b => !(isCollision (⟨⟨⟨240, 160⟩, ⟨2, 2⟩⟩, [], 5⟩ : State).ball b)) ∧
      (tick 480 320 ⟨⟨⟨240, 160⟩, ⟨2, 2⟩⟩, [], 5⟩ ⟨7, some 0⟩ 240).score =
        (⟨⟨⟨240, 160⟩, ⟨2, 2⟩⟩, [], 5⟩ : State).score +
          10 * ((⟨⟨⟨240, 160⟩, ⟨2, 2⟩⟩, [], 5⟩ : State).bricks.countP
            (fun b => isCollision (⟨⟨⟨240, 160⟩, ⟨2, 2⟩⟩, [], 5⟩ : State).ball b) : ℤ) ∧
      ((tick 480 320 ⟨⟨⟨240, 160⟩, ⟨2, 2⟩⟩, [], 5⟩ ⟨7, some 0⟩ 240).ball.direction.x =
          (⟨⟨⟨240, 160⟩, ⟨2, 2⟩⟩, [], 5⟩ : State).ball.direction.x ∨
        (tick 480 320 ⟨⟨⟨240, 160⟩, ⟨2, 2⟩⟩, [], 5⟩ ⟨7, some 0⟩ 240).ball.direction.x =
          -(⟨⟨⟨240, 160⟩, ⟨2, 2⟩⟩, [], 5⟩ : State).ball.direction.x) ∧
      ((tick 480 320 ⟨⟨⟨240, 160⟩, ⟨2, 2⟩⟩, [], 5⟩ ⟨7, some 0⟩ 240).ball.direction.y =
          (⟨⟨⟨240, 160⟩, ⟨2, 2⟩⟩, [], 5⟩ : State).ball.direction.y ∨
        (tick 480 320 ⟨⟨⟨240, 160⟩, ⟨2, 2⟩⟩, [], 5⟩ ⟨7, some 0⟩ 240).ball.direction.y =
          -(⟨⟨⟨240, 160⟩, ⟨2, 2⟩⟩, [], 5⟩ : State).ball.direction.y)) :=
  ⟨rfl, claim_C2_zero_delta 480 320 ⟨⟨⟨240, 160⟩, ⟨2, 2⟩⟩, [], 5⟩ ⟨7, some 0⟩ 240 rfl⟩

lemma length_filter_not (p : Brick → Bool) (l : List Brick) :
    (l.filter (fun a => !(p a))).length + l.countP p = l.length := by
  induction l with
  | nil => simp
  | cons b bs ih =>
    by_cases h : p b <;> simp [List.filter_cons, List.countP_cons, h] <;> omega

/-- Claim C3, counterexample: with stage height 320 and the ball's y exactly
320 — which does NOT exceed the floor boundary by more than one radius —
the controller still signals a loss, because the source's threshold is
`stage.height - BALL_RADIUS`, not `stage.height + BALL_RADIUS`. -/
theorem claim_C3_counterexample :
    sessionOutcome 320 ⟨⟨240, 320⟩, ⟨2, 2⟩⟩ [⟨100, 100, 20, 20⟩] = some Outcome.lost ∧
    ¬((320 : ℚ) > 320 + BALL_RADIUS) := by
  constructor
  · norm_num [sessionOutcome, BALL_RADIUS]
  · norm_num [BALL_RADIUS]

/-- Claim C3 (amended): after each rendered frame the controller signals
Lost exactly when the ball's y exceeds stageHeight minus one ball radius
(the ball comes within one radius of the floor boundary), and Won exactly
when the brick collection is empty and the loss condition does not hold
(the loss check fires first on the restart subject). -/
theorem claim_C3_terminal (H : ℚ) (ball : Ball) (bricks : List Brick) :
    (sessionOutcome H ball bricks = some Outcome.lost ↔
      ball.position.y > H - BALL_RADIUS) ∧
    (sessionOutcome H ball bricks = some Outcome.won ↔
      (¬ball.position.y > H - BALL_RADIUS ∧ bricks = [])) := by
  unfold sessionOutcome
  split_ifs with h1 h2
  · simp [h1]
  · simp [h1, List.length_eq_zero.mp h2]
  · simp [h1, ← List.length_eq_zero, h2]

/-- Claim C4: on every tick the score increases by exactly 10 times the
number of bricks removed in that tick, the score is non-decreasing, and
within a session started from initialState it is non-negative. -/
theorem claim_C4_score (W H : ℚ) (st : State) (tk : Ticker) (pd : ℚ) :
    (tick W H st tk pd).score =
      st.score + 10 * ((st.bricks.length : ℤ) - ((tick W H st tk pd).bricks.length : ℤ)) ∧
    st.score ≤ (tick W H st tk pd).score ∧
    (initialState W H).score = 0 ∧
    ∀ l : List (Ticker × ℚ), 0 ≤ (runTicks W H (initialState W H) l).score := by
  refine ⟨?_, tick_score_mono W H st tk pd, rfl,
    fun l => runTicks_score_nonneg W H _ (by simp [initialState]) l⟩
  have hc := length_filter_not (fun b => isCollision (movedBall st tk) b) st.bricks
  rw [tick_score, tick_bricks]
  have hz :
      ((st.bricks.filter fun b => !(isCollision (movedBall st tk) b)).length : ℤ) +
        ((st.bricks.countP fun b => isCollision (movedBall st tk) b : ℕ) : ℤ) =
        (st.bricks.length : ℤ) := by
    exact_mod_cast congrArg (Nat.cast : ℕ → ℤ) hc
  omega

/-- Claim C5: every tick's output brick collection is a subsequence of the
input collection (size non-increasing, never adding a brick), across a whole
run of ticks the collection stays a subsequence of the session's first one,
and a brick absent from the collection never reappears later. -/
theorem claim_C5_bricks (W H : ℚ) (st : State) (tk : Ticker) (pd : ℚ) :
    (tick W H st tk pd).bricks.Sublist st.bricks ∧
    (tick W H st tk pd).bricks.length ≤ st.bricks.length ∧
    (∀ l : List (Ticker × ℚ), (runTicks W H st l).bricks.Sublist st.bricks) ∧
    ∀ (b : Brick) (l : List (Ticker × ℚ)),
      b ∉ st.bricks → b ∉ (runTicks W H st l).bricks := by
  have h1 : (tick W H st tk pd).bricks.Sublist st.bricks := by
    rw [tick_bricks]; exact List.filter_sublist _
  exact ⟨h1, h1.length_le, runTicks_bricks_sublist W H st,
    fun b l hb hmem => hb ((runTicks_bricks_sublist W H st l).subset hmem)⟩

/-- Witness for claim C5 at a concrete state and run: a brick not in the
collection stays absent after a tick. -/
theorem claim_C5_bricks_witness :
    (⟨100, 100, 20, 20⟩ : Brick) ∉ (⟨⟨⟨240, 160⟩, ⟨2, 2⟩⟩, [], 0⟩ : State).bricks ∧
    (⟨100, 100, 20, 20⟩ : Brick) ∉
      (runTicks 480 320 ⟨⟨⟨240, 160⟩, ⟨2, 2⟩⟩, [], 0⟩ [(⟨0, some 1⟩, 240)]).bricks :=
  ⟨by simp, (claim_C5_bricks 480 320 ⟨⟨⟨240, 160⟩, ⟨2, 2⟩⟩, [], 0⟩ ⟨0, some 1⟩ 240).2.2.2
    ⟨100, 100, 20, 20⟩ [(⟨0, some 1⟩, 240)] (by simp)⟩

/-- Claim C6: for every direction/delta sequence, every position emitted by
the paddle stream — and the initial seed stageWidth/2 — lies within
[PADDLE_WIDTH/2, stageWidth - PADDLE_WIDTH/2]. The stage width is a runtime
canvas dimension; the playfield is assumed at least as wide as the paddle. -/
theorem claim_C6_paddle_bounds (W : ℚ) (h : PADDLE_WIDTH ≤ W)
    (inputs : List (Option ℚ × ℚ)) :
    ∀ q ∈ (W / 2) :: paddleEmissions W inputs,
      PADDLE_WIDTH / 2 ≤ q ∧ q ≤ W - PADDLE_WIDTH / 2 := by
  intro q hq
  rcases List.mem_cons.mp hq with h1 | h1
  · subst h1
    exact ⟨by linarith, by linarith⟩
  · exact paddleScan_bounds W h _ inputs q ((List.destutter_sublist _ _).subset h1)

/-- Witness for claim C6: a concrete stage width and input sequence; the
seed 240 is an emitted-or-seed value inside the clamp interval. -/
theorem claim_C6_paddle_bounds_witness :
    PADDLE_WIDTH ≤ (480 : ℚ) ∧
    ((240 : ℚ) ∈ ((480 : ℚ) / 2) :: paddleEmissions 480 [(some 1, 1)] ∧
      PADDLE_WIDTH / 2 ≤ (240 : ℚ) ∧ (240 : ℚ) ≤ 480 - PADDLE_WIDTH / 2) := by
  have hW : PADDLE_WIDTH ≤ (480 : ℚ) := by norm_num [PADDLE_WIDTH]
  have hm : (240 : ℚ) ∈ ((480 : ℚ) / 2) :: paddleEmissions 480 [(some 1, 1)] := by
    norm_num [List.mem_cons]
  exact ⟨hW, hm, claim_C6_paddle_bounds 480 hW [(some 1, 1)] 240 hm⟩

/-- Claim C7: the source's isHit agrees exactly with the spec reading — the
ball's x lies within the paddle's half-width span around the paddle center
and the ball's y has come within one ball radius of the paddle's top edge
(the paddle's band measured from the playfield bottom); it is a pure
function of its arguments. -/
theorem claim_C7_isHit (H : ℚ) (ball : Ball) (p : ℚ) :
    isHit H ball p = true ↔ hitSpec H ball p := by
  simp only [isHit, hitSpec, Bool.and_eq_true, decide_eq_true_eq, abs_sub_lt_iff]
  constructor
  · rintro ⟨⟨hx1, hx2⟩, hy⟩
    exact ⟨⟨by linarith, by linarith⟩, by linarith⟩
  · rintro ⟨⟨hx1, hx2⟩, hy⟩
    exact ⟨⟨by linarith, by linarith⟩, by linarith⟩

/-- Claim C8: a fresh session (the restart path re-runs initialState, which
re-runs createBricks) starts with score 0 and the full initial grid: the
same layout function as at boot, with BRICK_ROWS x BRICK_COLUMNS bricks. -/
theorem claim_C8_restart (W H : ℚ) :
    (initialState W H).score = 0 ∧
    (initialState W H).bricks = createBricks W ∧
    (createBricks W).length = BRICK_ROWS * BRICK_COLUMNS :=
  ⟨rfl, rfl, rfl⟩

/-- Claim C9: the first ticker emission carries a null deltaTime (`none`),
and its downstream effect is neutral: the paddle integrator leaves an
in-range position exactly unchanged and the reducer displaces the ball by
exactly zero. JS arithmetic coerces null to 0 (modelled by `deltaVal`), so
no NaN arises; every quantity stays an exact rational. -/
theorem claim_C9_first_tick (t0 : ℚ) (ts : List ℚ) (W H : ℚ) (p dir : ℚ)
    (st : State) (tk : Ticker) (pd : ℚ)
    (hp1 : PADDLE_WIDTH / 2 ≤ p) (hp2 : p ≤ W - PADDLE_WIDTH / 2)
    (hdt : tk.deltaTime = none) :
    (tickerStream (t0 :: ts)).head? = some ⟨t0, none⟩ ∧
    paddleStep W p none dir = p ∧
    (tick W H st tk pd).ball.position = st.ball.position := by
  refine ⟨rfl, ?_, ?_⟩
  · unfold paddleStep
    simp only [deltaVal, zero_mul, add_zero]
    rw [min_eq_left hp2, max_eq_left hp1]
  · rw [tick_position]
    simp [movedBall, deltaVal, hdt]

/-- Witness for claim C9 at a concrete first tick and in-range paddle. -/
theorem claim_C9_first_tick_witness :
    (PADDLE_WIDTH / 2 ≤ (240 : ℚ) ∧ (240 : ℚ) ≤ 480 - PADDLE_WIDTH / 2 ∧
      (⟨0, none⟩ : Ticker).deltaTime = none) ∧
    ((tickerStream [0]).head? = some ⟨0, none⟩ ∧
      paddleStep 480 240 none 1 = 240 ∧
      (tick 480 320 ⟨⟨⟨240, 160⟩, ⟨2, 2⟩⟩, [], 0⟩ ⟨0, none⟩ 240).ball.position =
        (⟨⟨⟨240, 160⟩, ⟨2, 2⟩⟩, [], 0⟩ : State).ball.position) :=
  ⟨⟨by norm_num [PADDLE_WIDTH], by norm_num [PADDLE_WIDTH], rfl⟩,
   claim_C9_first_tick 0 [] 480 320 240 1 ⟨⟨⟨240, 160⟩, ⟨2, 2⟩⟩, [], 0⟩ ⟨0, none⟩ 240
     (by norm_num [PADDLE_WIDTH]) (by norm_num [PADDLE_WIDTH]) rfl⟩

/-- Claim C10: every emission of the direction stream is -1, 0 or +1; every
keyup, whatever its key, emits 0; a keydown of any key other than the two
arrow keys emits nothing, leaving the current direction unchanged. -/
theorem claim_C10_direction :
    (∀ (e : KeyEvent) (v : ℤ), directionEmit e = some v →
      v = ARROW_LEFT ∨ v = 0 ∨ v = ARROW_RIGHT) ∧
    (∀ k : String, directionEmit (.keyup k) = some 0) ∧
    (∀ k : String, k ≠ "ArrowLeft" → k ≠ "ArrowRight" →
      directionEmit (.keydown k) = none) := by
  refine ⟨?_, fun k => rfl, ?_⟩
  · intro e v h
    cases e with
    | keydown k =>
      simp only [directionEmit] at h
      split_ifs at h with h1 h2
      · exact Or.inl (Option.some.inj h).symm
      · exact Or.inr (Or.inr (Option.some.inj h).symm)
    | keyup k =>
      exact Or.inr (Or.inl (Option.some.inj h).symm)
  · intro k h1 h2
    simp [directionEmit, h1, h2]

/-- Witness for claim C10: a non-arrow keydown emits nothing and an
unrelated keyup emits 0. -/
theorem claim_C10_direction_witness :
    (("a" : String) ≠ "ArrowLeft" ∧ ("a" : String) ≠ "ArrowRight") ∧
    directionEmit (KeyEvent.keydown "a") = none ∧
    directionEmit (KeyEvent.keyup "Shift") = some 0 :=
  ⟨⟨by decide, by decide⟩,
   claim_C10_direction.2.2 "a" (by decide) (by decide),
   claim_C10_direction.2.1 "Shift"⟩

end Breakout
